import Mathlib

/-!
Verification development for the LeadFlow buyer-lead tracker.

The definitions below are a shallow embedding of the TypeScript source:
the Zod validation schemas (src/lib/validations/buyer.ts), the
authorization helpers (src/lib/auth.ts), the server actions for
update / status change and the in-memory rate limiter
(src/lib/actions/buyers.ts), the CSV import/export actions
(src/lib/actions/csv.ts), and the list-page query builder
(src/app/buyers/page.tsx).  JavaScript coercion behaviour (truthiness,
parseInt, JSON.stringify comparison of null versus undefined) is
modelled explicitly, since several invariants depend on it.
-/

deriving instance DecidableEq for Except

namespace LeadFlow

/-! ## JavaScript value model -/

/-- A loosely typed JavaScript value as it reaches the Zod budget fields:
a string, a number, or the number NaN (produced by parseInt on
non-numeric text).  Absence (undefined) is modelled by wrapping in
Option. -/
inductive JSVal where
  | jstr (s : String)
  | jnum (n : Int)
  | jnan
deriving DecidableEq, Repr

/-- JavaScript truthiness of a JSVal: the empty string, the number 0 and
NaN are falsy; every other string or number is truthy. -/
def jsTruthy : JSVal → Bool
  | .jstr s => s ≠ ""
  | .jnum n => n ≠ 0
  | .jnan => false

/-- Whitespace characters skipped by JavaScript parseInt before the
number. -/
def isJsWhitespace (c : Char) : Bool :=
  c = ' ' || c = '\t' || c = '\n' || c = '\r' || c = '\x0b' || c = '\x0c'

/-- Decimal digit value of a character, if it is a digit. -/
def decDigitVal (c : Char) : Option Nat :=
  let n := c.toNat
  if 48 ≤ n && n ≤ 57 then some (n - 48) else none

/-- Hexadecimal digit value of a character, if it is a hex digit (code
points 48-57 are the digits, 97-102 lowercase a-f, 65-70 uppercase). -/
def hexDigitVal (c : Char) : Option Nat :=
  let n := c.toNat
  if 48 ≤ n && n ≤ 57 then some (n - 48)
  else if 97 ≤ n && n ≤ 102 then some (n - 87)
  else if 65 ≤ n && n ≤ 70 then some (n - 55)
  else none

/-- Accumulate the numeric value of the longest digit prefix, stopping at
the first non-digit (parseInt semantics). -/
def takeDigits (digitVal : Char → Option Nat) (base : Nat) : List Char → Nat → Nat
  | [], acc => acc
  | c :: cs, acc =>
    match digitVal c with
    | some d => takeDigits digitVal base cs (acc * base + d)
    | none => acc

/-- JavaScript parseInt with no radix argument: skip leading whitespace,
read an optional sign, then either a 0x/0X hexadecimal prefix or a
decimal digit prefix; the result is NaN (modelled as none) when no digit
follows. -/
def parseIntJS (s : String) : Option Int :=
  let cs := s.data.dropWhile isJsWhitespace
  let signed : Int × List Char :=
    match cs with
    | '-' :: rest => (-1, rest)
    | '+' :: rest => (1, rest)
    | _ => (1, cs)
  let sign := signed.1
  match signed.2 with
  | '0' :: x :: rest =>
    if x = 'x' || x = 'X' then
      match rest with
      | c :: _ =>
        match hexDigitVal c with
        | some _ => some (sign * (takeDigits hexDigitVal 16 rest 0 : Nat))
        | none => none
      | [] => none
    else
      some (sign * (takeDigits decDigitVal 10 ('0' :: x :: rest) 0 : Nat))
  | c :: rest =>
    match decDigitVal c with
    | some _ => some (sign * (takeDigits decDigitVal 10 (c :: rest) 0 : Nat))
    | none => none
  | [] => none

/-- Escape a character for a JSON string literal (quote and backslash;
enough for an injective encoding, which is all the diff comparison
needs). -/
def jsonEscapeChar (c : Char) : String :=
  if c = '"' then "\\\"" else if c = '\\' then "\\\\" else String.singleton c

/-- Escape a string for a JSON string literal. -/
def jsonEscape (s : String) : String :=
  String.join (s.data.map jsonEscapeChar)

/-- JSON.stringify of a string value. -/
def jsonQuote (s : String) : String :=
  "\"" ++ jsonEscape s ++ "\""

/-- Split a character list at every occurrence of the separator
(structural recursion, so terms reduce). -/
def splitOnCharAux (sep : Char) : List Char → List Char → List (List Char)
  | [], acc => [acc.reverse]
  | c :: cs, acc =>
    if c = sep then acc.reverse :: splitOnCharAux sep cs []
    else splitOnCharAux sep cs (c :: acc)

/-- Split a string at every occurrence of a separator character. -/
def splitOnChar (sep : Char) (s : String) : List String :=
  (splitOnCharAux sep s.data []).map (fun l => ⟨l⟩)

/-- Lowercase every character. -/
def strToLower (s : String) : String :=
  ⟨s.data.map Char.toLower⟩

/-! ## Enumerations (src/lib/db/schema.ts and buyer.ts zod enums) -/

inductive City where
  | Chandigarh | Mohali | Zirakpur | Panchkula | Other
deriving DecidableEq, Repr

inductive PropertyType where
  | Apartment | Villa | Plot | Office | Retail
deriving DecidableEq, Repr

inductive BHK where
  | B1 | B2 | B3 | B4 | Studio
deriving DecidableEq, Repr

inductive Purpose where
  | Buy | Rent
deriving DecidableEq, Repr

inductive Timeline where
  | T0to3m | T3to6m | TOver6m | Exploring
deriving DecidableEq, Repr

inductive Source where
  | Website | Referral | WalkIn | Call | Other
deriving DecidableEq, Repr

inductive Status where
  | New | Qualified | Contacted | Visited | Negotiation | Converted | Dropped
deriving DecidableEq, Repr

def cityToString : City → String
  | .Chandigarh => "Chandigarh" | .Mohali => "Mohali" | .Zirakpur => "Zirakpur"
  | .Panchkula => "Panchkula" | .Other => "Other"

def cityFromString (s : String) : Option City :=
  if s = "Chandigarh" then some .Chandigarh
  else if s = "Mohali" then some .Mohali
  else if s = "Zirakpur" then some .Zirakpur
  else if s = "Panchkula" then some .Panchkula
  else if s = "Other" then some .Other
  else none

def propertyTypeToString : PropertyType → String
  | .Apartment => "Apartment" | .Villa => "Villa" | .Plot => "Plot"
  | .Office => "Office" | .Retail => "Retail"

def propertyTypeFromString (s : String) : Option PropertyType :=
  if s = "Apartment" then some .Apartment
  else if s = "Villa" then some .Villa
  else if s = "Plot" then some .Plot
  else if s = "Office" then some .Office
  else if s = "Retail" then some .Retail
  else none

def bhkToString : BHK → String
  | .B1 => "1" | .B2 => "2" | .B3 => "3" | .B4 => "4" | .Studio => "Studio"

def bhkFromString (s : String) : Option BHK :=
  if s = "1" then some .B1
  else if s = "2" then some .B2
  else if s = "3" then some .B3
  else if s = "4" then some .B4
  else if s = "Studio" then some .Studio
  else none

def purposeToString : Purpose → String
  | .Buy => "Buy" | .Rent => "Rent"

def purposeFromString (s : String) : Option Purpose :=
  if s = "Buy" then some .Buy else if s = "Rent" then some .Rent else none

def timelineToString : Timeline → String
  | .T0to3m => "0-3m" | .T3to6m => "3-6m" | .TOver6m => ">6m" | .Exploring => "Exploring"

def timelineFromString (s : String) : Option Timeline :=
  if s = "0-3m" then some .T0to3m
  else if s = "3-6m" then some .T3to6m
  else if s = ">6m" then some .TOver6m
  else if s = "Exploring" then some .Exploring
  else none

def sourceToString : Source → String
  | .Website => "Website" | .Referral => "Referral" | .WalkIn => "Walk-in"
  | .Call => "Call" | .Other => "Other"

def sourceFromString (s : String) : Option Source :=
  if s = "Website" then some .Website
  else if s = "Referral" then some .Referral
  else if s = "Walk-in" then some .WalkIn
  else if s = "Call" then some .Call
  else if s = "Other" then some .Other
  else none

def statusToString : Status → String
  | .New => "New" | .Qualified => "Qualified" | .Contacted => "Contacted"
  | .Visited => "Visited" | .Negotiation => "Negotiation"
  | .Converted => "Converted" | .Dropped => "Dropped"

def statusFromString (s : String) : Option Status :=
  if s = "New" then some .New
  else if s = "Qualified" then some .Qualified
  else if s = "Contacted" then some .Contacted
  else if s = "Visited" then some .Visited
  else if s = "Negotiation" then some .Negotiation
  else if s = "Converted" then some .Converted
  else if s = "Dropped" then some .Dropped
  else none

/-! ## Validation engine (buyerSchema in src/lib/validations/buyer.ts) -/

/-- One Zod issue: the path (field name) and the message. -/
structure Issue where
  path : String
  msg : String
deriving DecidableEq, Repr

/-- Characters allowed in the local part of an email by the Zod email
pattern (letters, digits, underscore, apostrophe, plus, minus, dot). -/
def isEmailLocalChar (c : Char) : Bool :=
  c.isAlphanum || c = '_' || c.toNat = 39 || c = '+' || c = '-' || c = '.'

/-- Characters allowed as the final character of the local part. -/
def isEmailLocalEnd (c : Char) : Bool :=
  c.isAlphanum || c = '_' || c = '+' || c = '-'

/-- No two consecutive dots anywhere in the string. -/
def noDoubleDot : List Char → Bool
  | [] => true
  | [_] => true
  | a :: b :: rest => !(a = '.' && b = '.') && noDoubleDot (b :: rest)

/-- A domain label before the final one: first character alphanumeric,
the rest alphanumeric or minus. -/
def validDomainLabel : List Char → Bool
  | [] => false
  | c :: rest => c.isAlphanum && rest.all (fun d => d.isAlphanum || d = '-')

/-- Models the Zod v3 email regular expression: a non-empty local part of
the allowed characters, not starting with a dot, ending in a restricted
character, no double dots anywhere, an at sign, then one or more domain
labels and a final label of at least two letters. -/
def validEmail (s : String) : Bool :=
  match splitOnChar '@' s with
  | [localS, domainS] =>
    let localCs := localS.data
    (match localCs with
     | [] => false
     | c :: _ =>
       c ≠ '.' && localCs.all isEmailLocalChar &&
       (match localCs.getLast? with
        | some e => isEmailLocalEnd e
        | none => false)) &&
    noDoubleDot s.data &&
    (match (splitOnChar '.' domainS).map String.data with
     | [] => false
     | [_] => false
     | labels =>
       (match labels.getLast? with
        | some lastL => lastL.length ≥ 2 && lastL.all Char.isAlpha
        | none => false) &&
       (labels.dropLast.all validDomainLabel))
  | _ => false

/-- The raw, loosely typed input assembled in the createBuyer action from
FormData (strings, possibly absent values, budgets possibly numbers). -/
structure RawBuyer where
  fullName : String
  email : Option String
  phone : String
  city : String
  propertyType : String
  bhk : Option String
  purpose : String
  budgetMin : Option JSVal
  budgetMax : Option JSVal
  timeline : String
  source : String
  status : Option String
  notes : Option String
  tags : List String
deriving DecidableEq, Repr

/-- The fully typed value produced by a successful buyerSchema parse. -/
structure BuyerData where
  fullName : String
  email : Option String
  phone : String
  city : City
  propertyType : PropertyType
  bhk : Option BHK
  purpose : Purpose
  budgetMin : Option Int
  budgetMax : Option Int
  timeline : Timeline
  source : Source
  status : Status
  notes : Option String
  tags : List String
deriving DecidableEq, Repr

/-- fullName: z.string().min(1).max(80) with custom messages. -/
def parseFullName (s : String) : Except Issue String :=
  if s.length < 1 then .error ⟨"fullName", "Full name is required"⟩
  else if s.length > 80 then .error ⟨"fullName", "Full name must be 80 characters or less"⟩
  else .ok s

/-- email: union of a valid email string and the empty literal, optional,
with the empty string transformed to undefined. -/
def parseEmail : Option String → Except Issue (Option String)
  | none => .ok none
  | some s =>
    if s = "" then .ok none
    else if validEmail s then .ok (some s)
    else .error ⟨"email", "Invalid email address"⟩

/-- phone: z.string().min(1).max(15) with custom messages. -/
def parsePhone (s : String) : Except Issue String :=
  if s.length < 1 then .error ⟨"phone", "Phone number is required"⟩
  else if s.length > 15 then .error ⟨"phone", "Phone number must be 15 characters or less"⟩
  else .ok s

def parseCity (s : String) : Except Issue City :=
  match cityFromString s with
  | some c => .ok c
  | none => .error ⟨"city", "Invalid enum value"⟩

def parsePropertyType (s : String) : Except Issue PropertyType :=
  match propertyTypeFromString s with
  | some p => .ok p
  | none => .error ⟨"propertyType", "Invalid enum value"⟩

/-- bhk: union of the bhk enum and the empty literal, optional, with the
empty string transformed to undefined. -/
def parseBhk : Option String → Except Issue (Option BHK)
  | none => .ok none
  | some s =>
    if s = "" then .ok none
    else match bhkFromString s with
      | some b => .ok (some b)
      | none => .error ⟨"bhk", "Invalid enum value"⟩

def parsePurpose (s : String) : Except Issue Purpose :=
  match purposeFromString s with
  | some p => .ok p
  | none => .error ⟨"purpose", "Invalid enum value"⟩

def parseTimeline (s : String) : Except Issue Timeline :=
  match timelineFromString s with
  | some t => .ok t
  | none => .error ⟨"timeline", "Invalid enum value"⟩

def parseSource (s : String) : Except Issue Source :=
  match sourceFromString s with
  | some v => .ok v
  | none => .error ⟨"source", "Invalid enum value"⟩

/-- status: statusSchema.default of New, so an absent value becomes New. -/
def parseStatus : Option String → Except Issue Status
  | none => .ok .New
  | some s =>
    match statusFromString s with
    | some v => .ok v
    | none => .error ⟨"status", "Invalid enum value"⟩

/-- notes: union of a string of at most 1000 characters and the empty
literal, optional, empty transformed to undefined. -/
def parseNotes : Option String → Except Issue (Option String)
  | none => .ok none
  | some s =>
    if s = "" then .ok none
    else if s.length ≤ 1000 then .ok (some s)
    else .error ⟨"notes", "Notes must be 1000 characters or less"⟩

/-- The budget transform: a falsy value (absent, empty string, the number
0 or NaN) becomes undefined; a string is run through parseInt, with NaN
becoming undefined; a number is kept. -/
def coerceBudget : Option JSVal → Option Int
  | none => none
  | some v =>
    if jsTruthy v then
      match v with
      | .jstr s => parseIntJS s
      | .jnum n => some n
      | .jnan => none
    else none

/-- Issues of a single field parse, as a list. -/
def errsOf {α : Type} : Except Issue α → List Issue
  | .error i => [i]
  | .ok _ => []

/-- All field-level issues of the base object parse, in schema key
order. -/
def fieldIssues (r : RawBuyer) : List Issue :=
  errsOf (parseFullName r.fullName) ++ errsOf (parseEmail r.email) ++
  errsOf (parsePhone r.phone) ++ errsOf (parseCity r.city) ++
  errsOf (parsePropertyType r.propertyType) ++ errsOf (parseBhk r.bhk) ++
  errsOf (parsePurpose r.purpose) ++ errsOf (parseTimeline r.timeline) ++
  errsOf (parseSource r.source) ++ errsOf (parseStatus r.status) ++
  errsOf (parseNotes r.notes)

/-- The base object parse of buyerSchema: every field parsed with its own
rule, all failures collected; the budget transforms never fail; tags
default to the given list. -/
def parseFields (r : RawBuyer) : Except (List Issue) BuyerData :=
  match parseFullName r.fullName, parseEmail r.email, parsePhone r.phone,
        parseCity r.city, parsePropertyType r.propertyType, parseBhk r.bhk,
        parsePurpose r.purpose, parseTimeline r.timeline, parseSource r.source,
        parseStatus r.status, parseNotes r.notes with
  | .ok fn, .ok em, .ok ph, .ok ci, .ok pt, .ok bh, .ok pu, .ok tl, .ok so, .ok st, .ok no =>
    .ok { fullName := fn, email := em, phone := ph, city := ci, propertyType := pt,
          bhk := bh, purpose := pu,
          budgetMin := coerceBudget r.budgetMin, budgetMax := coerceBudget r.budgetMax,
          timeline := tl, source := so, status := st, notes := no, tags := r.tags }
  | _, _, _, _, _, _, _, _, _, _, _ => .error (fieldIssues r)

def bhkRequiredIssue : Issue :=
  ⟨"bhk", "BHK is required for Apartment and Villa properties"⟩

def budgetOrderIssue : Issue :=
  ⟨"budgetMax", "Maximum budget must be greater than or equal to minimum budget"⟩

def budgetMinPosIssue : Issue :=
  ⟨"budgetMin", "Budget minimum must be positive"⟩

def budgetMaxPosIssue : Issue :=
  ⟨"budgetMax", "Budget maximum must be positive"⟩

/-- Refinement (a): returns false exactly when the property type is
Apartment or Villa and bhk is falsy (absent). -/
def refineBhkOk (pt : PropertyType) (bhk : Option BHK) : Bool :=
  !((pt = .Apartment || pt = .Villa) && bhk.isNone)

/-- Refinement (b): budgetMin and budgetMax are compared only when both
are truthy (present and non-zero, JavaScript truthiness). -/
def refineBudgetOrderOk : Option Int → Option Int → Bool
  | some m, some M => !(m ≠ 0 && M ≠ 0 && M < m)
  | _, _ => true

/-- Refinement (c): budgetMin, when present (not undefined), must be
positive. -/
def refineBudgetMinPosOk : Option Int → Bool
  | none => true
  | some m => !(m ≤ 0)

/-- Refinement (d): budgetMax, when present, must be positive. -/
def refineBudgetMaxPosOk : Option Int → Bool
  | none => true
  | some m => !(m ≤ 0)

/-- The four chained refinements, run in order with all issues collected
(Zod keeps running refinements on a dirty but not aborted parse). -/
def refineIssuesCore (pt : PropertyType) (bhk : Option BHK)
    (bmin bmax : Option Int) : List Issue :=
  (if refineBhkOk pt bhk then [] else [bhkRequiredIssue]) ++
  (if refineBudgetOrderOk bmin bmax then [] else [budgetOrderIssue]) ++
  (if refineBudgetMinPosOk bmin then [] else [budgetMinPosIssue]) ++
  (if refineBudgetMaxPosOk bmax then [] else [budgetMaxPosIssue])

def refineIssues (d : BuyerData) : List Issue :=
  refineIssuesCore d.propertyType d.bhk d.budgetMin d.budgetMax

/-- buyerSchema.parse: the base object parse (refinements do not run when
it aborts), then the four refinements with their issues collected. -/
def buyerSchemaParse (r : RawBuyer) : Except (List Issue) BuyerData :=
  match parseFields r with
  | .error is => .error is
  | .ok d =>
    match refineIssues d with
    | [] => .ok d
    | is => .error is

/-! ## Update schema (updateBuyerSchema: buyerSchema.partial() extended
with id and updatedAt) -/

def isHexChar (c : Char) : Bool :=
  c.isDigit || ('a' ≤ c && c ≤ 'f') || ('A' ≤ c && c ≤ 'F')

/-- Models the Zod uuid string check: five hexadecimal groups of lengths
8, 4, 4, 4 and 12 separated by dashes. -/
def isUuid (s : String) : Bool :=
  match (splitOnChar '-' s).map String.data with
  | [a, b, c, d, e] =>
    a.length = 8 && b.length = 4 && c.length = 4 && d.length = 4 && e.length = 12 &&
    (a ++ b ++ c ++ d ++ e).all isHexChar
  | _ => false

/-- The raw input assembled in the updateBuyer action from FormData.
Fields read straight off the form (fullName, phone, city, propertyType,
purpose, timeline, source, status, updatedAt) arrive as a string or, if
missing from the form, as null (modelled by none); the action converts
the falsy cases of email, bhk and notes to undefined, parses budgets to
numbers, and always supplies a tags array. -/
structure UpdateRaw where
  id : String
  fullName : Option String
  email : Option String
  phone : Option String
  city : Option String
  propertyType : Option String
  bhk : Option String
  purpose : Option String
  budgetMin : Option JSVal
  budgetMax : Option JSVal
  timeline : Option String
  source : Option String
  status : Option String
  notes : Option String
  tags : List String
  updatedAt : Option String
deriving DecidableEq, Repr

/-- A successful updateBuyerSchema parse of this actions raw data.  The
schema is partial, but Zod optional accepts undefined only — a null
form field fails with an invalid-type issue — so every form-sourced
field is present after a successful parse, and only the fields the
action converts to undefined stay optional. -/
structure UpdateData where
  id : String
  fullName : String
  email : Option String
  phone : String
  city : City
  propertyType : PropertyType
  bhk : Option BHK
  purpose : Purpose
  budgetMin : Option Int
  budgetMax : Option Int
  timeline : Timeline
  source : Source
  status : Status
  notes : Option String
  tags : List String
  updatedAt : String
deriving DecidableEq, Repr

/-- Parse a form-sourced field: null (absent from the form) fails the
optional wrapper with an invalid-type issue, a string runs the inner
parser. -/
def parseFromForm {α : Type} (path : String) (f : String → Except Issue α) :
    Option String → Except Issue α
  | none => .error ⟨path, "Expected string, received null"⟩
  | some s => f s

def parseId (s : String) : Except Issue String :=
  if isUuid s then .ok s else .error ⟨"id", "Invalid buyer ID"⟩

def updateFieldIssues (r : UpdateRaw) : List Issue :=
  errsOf (parseFromForm "fullName" parseFullName r.fullName) ++
  errsOf (parseEmail r.email) ++
  errsOf (parseFromForm "phone" parsePhone r.phone) ++
  errsOf (parseFromForm "city" parseCity r.city) ++
  errsOf (parseFromForm "propertyType" parsePropertyType r.propertyType) ++
  errsOf (parseBhk r.bhk) ++
  errsOf (parseFromForm "purpose" parsePurpose r.purpose) ++
  errsOf (parseFromForm "timeline" parseTimeline r.timeline) ++
  errsOf (parseFromForm "source" parseSource r.source) ++
  errsOf (parseFromForm "status" (fun s => parseStatus (some s)) r.status) ++
  errsOf (parseNotes r.notes) ++
  errsOf (parseId r.id) ++
  errsOf (parseFromForm "updatedAt" Except.ok r.updatedAt)

/-- The base object parse of updateBuyerSchema on this actions raw data:
the partial buyer fields in schema key order, then the extended id and
updatedAt fields; all failures collected. -/
def updateParseFields (r : UpdateRaw) : Except (List Issue) UpdateData :=
  match parseFromForm "fullName" parseFullName r.fullName, parseEmail r.email,
        parseFromForm "phone" parsePhone r.phone,
        parseFromForm "city" parseCity r.city,
        parseFromForm "propertyType" parsePropertyType r.propertyType,
        parseBhk r.bhk,
        parseFromForm "purpose" parsePurpose r.purpose,
        parseFromForm "timeline" parseTimeline r.timeline,
        parseFromForm "source" parseSource r.source,
        parseFromForm "status" (fun s => parseStatus (some s)) r.status,
        parseNotes r.notes, parseId r.id,
        parseFromForm "updatedAt" Except.ok r.updatedAt with
  | .ok fn, .ok em, .ok ph, .ok ci, .ok pt, .ok bh, .ok pu, .ok tl, .ok so, .ok st,
    .ok no, .ok i, .ok ua =>
    .ok { id := i, fullName := fn, email := em, phone := ph, city := ci, propertyType := pt,
          bhk := bh, purpose := pu,
          budgetMin := coerceBudget r.budgetMin, budgetMax := coerceBudget r.budgetMax,
          timeline := tl, source := so, status := st, notes := no,
          tags := r.tags, updatedAt := ua }
  | _, _, _, _, _, _, _, _, _, _, _, _, _ => .error (updateFieldIssues r)

/-- The four refinements over the parsed update data, in order, all
issues collected. -/
def updateRefineIssues (u : UpdateData) : List Issue :=
  refineIssuesCore u.propertyType u.bhk u.budgetMin u.budgetMax

def updateBuyerSchemaParse (r : UpdateRaw) : Except (List Issue) UpdateData :=
  match updateParseFields r with
  | .error is => .error is
  | .ok u =>
    match updateRefineIssues u with
    | [] => .ok u
    | is => .error is

/-! ## Authorization policy (src/lib/auth.ts) -/

/-- The identity collaborator: the Supabase user with its two role-claim
channels. -/
structure SupabaseUser where
  id : String
  email : Option String
  userMetaRole : Option String
  appMetaRole : Option String
deriving DecidableEq, Repr

def demoAdminEmail : String := "admin@leadflow.com"

structure UserWithRole where
  id : String
  email : Option String
  isAdmin : Bool
deriving DecidableEq, Repr

/-- The isAdmin computation in getCurrentUser: user_metadata role equals
admin, or app_metadata role equals admin, or the email equals the demo
admin address. -/
def computeIsAdmin (u : SupabaseUser) : Bool :=
  u.userMetaRole == some "admin" || u.appMetaRole == some "admin" ||
    u.email == some demoAdminEmail

/-- getCurrentUser on an authenticated Supabase user. -/
def getCurrentUserModel (u : SupabaseUser) : UserWithRole :=
  { id := u.id, email := u.email, isAdmin := computeIsAdmin u }

def canEditBuyer (user : UserWithRole) (buyerOwnerId : String) : Bool :=
  user.isAdmin || user.id == buyerOwnerId

def canViewAllBuyers (user : UserWithRole) : Bool :=
  user.isAdmin

/-! ## Rate limiter (src/lib/actions/buyers.ts) -/

/-- The in-memory LRU cache restricted to one time-to-live window: an
association list from cache key to counter.  Capacity eviction and
expiry are outside the window modelled here. -/
abbrev RLCache := List (String × Nat)

def rlGet (cache : RLCache) (key : String) : Nat :=
  match cache.find? (fun p => p.1 == key) with
  | some p => p.2
  | none => 0

def rlSet (cache : RLCache) (key : String) (v : Nat) : RLCache :=
  match cache with
  | [] => [(key, v)]
  | p :: rest => if p.1 == key then (key, v) :: rest else p :: rlSet rest key v

def rateLimitKey (userId : String) : String :=
  "rate_limit_" ++ userId

/-- checkRateLimit: read the counter (0 when absent); reject when it has
reached maxRequests (the source default is 10), otherwise increment and
admit. -/
def checkRateLimit (userId : String) (maxRequests : Nat) (cache : RLCache) :
    Bool × RLCache :=
  let key := rateLimitKey userId
  let current := rlGet cache key
  if current ≥ maxRequests then (false, cache)
  else (true, rlSet cache key (current + 1))

/-- The number of admitted requests in n sequential checks for one
caller at the default threshold. -/
def admittedCount (userId : String) : Nat → RLCache → Nat
  | 0, _ => 0
  | n + 1, cache =>
    let r := checkRateLimit userId 10 cache
    (if r.1 then 1 else 0) + admittedCount userId n r.2

/-! ## Persistence model (src/lib/db/schema.ts) -/

/-- A row of the buyers table.  Timestamps are carried as their ISO-8601
string rendering, which is what the optimistic-concurrency comparison
uses. -/
structure Buyer where
  id : String
  fullName : String
  email : Option String
  phone : String
  city : City
  propertyType : PropertyType
  bhk : Option BHK
  purpose : Purpose
  budgetMin : Option Int
  budgetMax : Option Int
  timeline : Timeline
  source : Source
  status : Status
  notes : Option String
  tags : List String
  ownerId : String
  updatedAt : String
  createdAt : String
deriving DecidableEq, Repr

/-- A row of the buyer_history table.  The diff is kept structured: a
list of (field, old, new) where old and new are the JSON serialization
of the respective value, and none stands for JavaScript undefined (which
JSON.stringify leaves unrepresented). -/
structure HistoryEntry where
  buyerId : String
  changedBy : String
  diff : List (String × Option String × Option String)
deriving DecidableEq, Repr

structure DbState where
  buyers : List Buyer
  history : List HistoryEntry
deriving DecidableEq, Repr

/-- Lookup by primary key with limit 1. -/
def findBuyer (db : DbState) (id : String) : Option Buyer :=
  (db.buyers.filter (fun b => b.id == id)).head?

/-! ## History differ (the changes loop in updateBuyer) -/

/-- JSON.stringify of a nullable string column value. -/
def jsonOfOptStr : Option String → String
  | none => "null"
  | some s => jsonQuote s

/-- JSON.stringify of a nullable integer column value. -/
def jsonOfOptInt : Option Int → String
  | none => "null"
  | some n => toString n

/-- JSON.stringify of a tags array. -/
def jsonOfTags (l : List String) : String :=
  "[" ++ String.intercalate "," (l.map jsonQuote) ++ "]"

/-- For each tracked field, in the fieldsToCheck order, the pair of
JSON.stringify renderings: the stored value on the left (never undefined,
since the row exists and absent columns are null) and the validated
submitted value on the right (undefined when the field was absent from
the partial parse). -/
def fieldPairs (cur : Buyer) (d : UpdateData) :
    List (String × Option String × Option String) :=
  [ ("fullName", some (jsonQuote cur.fullName), some (jsonQuote d.fullName)),
    ("email", some (jsonOfOptStr cur.email), d.email.map jsonQuote),
    ("phone", some (jsonQuote cur.phone), some (jsonQuote d.phone)),
    ("city", some (jsonQuote (cityToString cur.city)),
      some (jsonQuote (cityToString d.city))),
    ("propertyType", some (jsonQuote (propertyTypeToString cur.propertyType)),
      some (jsonQuote (propertyTypeToString d.propertyType))),
    ("bhk", some (jsonOfOptStr (cur.bhk.map bhkToString)),
      d.bhk.map (fun b => jsonQuote (bhkToString b))),
    ("purpose", some (jsonQuote (purposeToString cur.purpose)),
      some (jsonQuote (purposeToString d.purpose))),
    ("budgetMin", some (jsonOfOptInt cur.budgetMin),
      d.budgetMin.map (fun n => toString n)),
    ("budgetMax", some (jsonOfOptInt cur.budgetMax),
      d.budgetMax.map (fun n => toString n)),
    ("timeline", some (jsonQuote (timelineToString cur.timeline)),
      some (jsonQuote (timelineToString d.timeline))),
    ("source", some (jsonQuote (sourceToString cur.source)),
      some (jsonQuote (sourceToString d.source))),
    ("status", some (jsonQuote (statusToString cur.status)),
      some (jsonQuote (statusToString d.status))),
    ("notes", some (jsonOfOptStr cur.notes), d.notes.map jsonQuote),
    ("tags", some (jsonOfTags cur.tags), some (jsonOfTags d.tags)) ]

/-- The changes record: every tracked field whose serialized old and new
values differ (so a stored null compares different from an absent
submission). -/
def computeChanges (cur : Buyer) (d : UpdateData) :
    List (String × Option String × Option String) :=
  (fieldPairs cur d).filter (fun p => p.2.1 ≠ p.2.2)

/-- The .set of the update statement: drizzle skips values that are
undefined, so absent fields keep their stored value; updatedAt is
server-assigned on every update. -/
def applyUpdate (cur : Buyer) (d : UpdateData) (now : String) : Buyer :=
  { cur with
    fullName := d.fullName
    email := match d.email with | some e => some e | none => cur.email
    phone := d.phone
    city := d.city
    propertyType := d.propertyType
    bhk := match d.bhk with | some b => some b | none => cur.bhk
    purpose := d.purpose
    budgetMin := match d.budgetMin with | some n => some n | none => cur.budgetMin
    budgetMax := match d.budgetMax with | some n => some n | none => cur.budgetMax
    timeline := d.timeline
    source := d.source
    status := d.status
    notes := match d.notes with | some s => some s | none => cur.notes
    tags := d.tags
    updatedAt := now }

/-! ## Mutation pipeline (src/lib/actions/buyers.ts) -/

/-- The failure taxonomy of the actions, each constructor standing for
one thrown message. -/
inductive ActionError where
  | rateLimited
  | validationFailed (issues : List Issue)
  | notFound
  | forbidden
  | conflict
  | persistenceFailure
deriving DecidableEq, Repr

/-- The message thrown for each failure in the source. -/
def ActionError.message : ActionError → String
  | .rateLimited => "Too many requests. Please try again later."
  | .validationFailed _ => "Validation failed"
  | .notFound => "Buyer not found"
  | .forbidden => "Unauthorized to edit this buyer"
  | .conflict => "This record was modified by another user since you started editing. Please refresh the page and try again."
  | .persistenceFailure => "Persistence failure"

/-- The optimistic-concurrency guard: a comparison happens only when the
submitted token is truthy (present and non-empty); it fails when the
stored ISO timestamp differs from the token. -/
def submittedTokenMismatch (tok : Option String) (currentUpdatedAt : String) : Bool :=
  match tok with
  | none => false
  | some t => t ≠ "" && currentUpdatedAt ≠ t

/-- The updateBuyer action: rate limit, parse and validate, load current
state, authorize, concurrency check, then one transaction that writes
the record and appends a history entry exactly when the computed diff is
non-empty.  Every failure path returns before the transaction, leaving
the database untouched. -/
def updateBuyer (user : UserWithRole) (cache : RLCache) (raw : UpdateRaw)
    (db : DbState) (now : String) : RLCache × DbState × Except ActionError Unit :=
  match checkRateLimit user.id 10 cache with
  | (false, c) => (c, db, .error .rateLimited)
  | (true, c) =>
    match updateBuyerSchemaParse raw with
    | .error is => (c, db, .error (.validationFailed is))
    | .ok d =>
      match findBuyer db raw.id with
      | none => (c, db, .error .notFound)
      | some cur =>
        if !canEditBuyer user cur.ownerId then (c, db, .error .forbidden)
        else if submittedTokenMismatch raw.updatedAt cur.updatedAt then
          (c, db, .error .conflict)
        else
          let changes := computeChanges cur d
          let db2 : DbState :=
            { buyers := db.buyers.map (fun b => if b.id == raw.id then applyUpdate b d now else b)
              history := db.history ++
                (if changes.isEmpty then []
                 else [{ buyerId := raw.id, changedBy := user.id, diff := changes }]) }
          (c, db2, .ok ())

/-- The updateBuyerStatus action: rate limit, load, authorize, then one
transaction that writes the status and always appends a history entry
with diff status from old to new — there is no empty-diff check on this
path.  The status string is enum-constrained at the storage boundary. -/
def updateBuyerStatus (user : UserWithRole) (cache : RLCache) (buyerId : String)
    (status : String) (db : DbState) (now : String) :
    RLCache × DbState × Except ActionError Unit :=
  match checkRateLimit user.id 10 cache with
  | (false, c) => (c, db, .error .rateLimited)
  | (true, c) =>
    match findBuyer db buyerId with
    | none => (c, db, .error .notFound)
    | some cur =>
      if !canEditBuyer user cur.ownerId then (c, db, .error .forbidden)
      else
        match statusFromString status with
        | none => (c, db, .error .persistenceFailure)
        | some st =>
          (c,
           { buyers := db.buyers.map
               (fun b => if b.id == buyerId then { b with status := st, updatedAt := now } else b)
             history := db.history ++
               [{ buyerId := buyerId, changedBy := user.id,
                  diff := [("status", some (jsonQuote (statusToString cur.status)),
                            some (jsonQuote status))] }] },
           .ok ())

/-! ## Query and filter builder (getBuyers in src/app/buyers/page.tsx and
the query of exportCSV in src/lib/actions/csv.ts) -/

/-- The equality and search filters shared by the list page and the CSV
export. -/
structure QueryFilters where
  search : Option String
  city : Option String
  propertyType : Option String
  status : Option String
  timeline : Option String
deriving DecidableEq, Repr

/-- The full list-page parameters. -/
structure ListParams where
  page : Option String
  search : Option String
  city : Option String
  propertyType : Option String
  status : Option String
  timeline : Option String
  sort : Option String
deriving DecidableEq, Repr

def ListParams.filters (p : ListParams) : QueryFilters :=
  { search := p.search, city := p.city, propertyType := p.propertyType,
    status := p.status, timeline := p.timeline }

/-- Truthiness of an optional string parameter: present and non-empty. -/
def strTruthy : Option String → Bool
  | none => false
  | some s => s ≠ ""

/-- Does the needle occur as a contiguous sublist of the haystack?
This models the ilike pattern percent s percent as a case-insensitive
substring match (literal percent or underscore characters inside the
search term are not given wildcard meaning here). -/
def listContainsSub (needle : List Char) : List Char → Bool
  | [] => needle.isEmpty
  | c :: rest => needle.isPrefixOf (c :: rest) || listContainsSub needle rest

def ilikeContains (hay : String) (needle : String) : Bool :=
  listContainsSub (strToLower needle).data (strToLower hay).data

/-- The search condition: an OR of ilike over full name, phone and
email; a null email never matches. -/
def searchMatches (q : String) (b : Buyer) : Bool :=
  ilikeContains b.fullName q || ilikeContains b.phone q ||
    (match b.email with
     | some e => ilikeContains e q
     | none => false)

/-- A condition pushed onto the array only when its parameter is
truthy. -/
def condIf (active : Bool) (cond : Buyer → Bool) : List (Buyer → Bool) :=
  if active then [cond] else []

/-- The non-ownership conditions: one per truthy filter parameter, in
push order. -/
def filterConditions (f : QueryFilters) : List (Buyer → Bool) :=
  condIf (strTruthy f.search) (searchMatches (f.search.getD "")) ++
  condIf (strTruthy f.city) (fun b => cityToString b.city == f.city.getD "") ++
  condIf (strTruthy f.propertyType)
    (fun b => propertyTypeToString b.propertyType == f.propertyType.getD "") ++
  condIf (strTruthy f.status) (fun b => statusToString b.status == f.status.getD "") ++
  condIf (strTruthy f.timeline) (fun b => timelineToString b.timeline == f.timeline.getD "")

/-- The conditions array as built by the source: the ownership condition
first (absent for admins), then one condition per truthy parameter. -/
def buildConditions (user : UserWithRole) (f : QueryFilters) : List (Buyer → Bool) :=
  (if canViewAllBuyers user then [] else [fun b => b.ownerId == user.id]) ++
    filterConditions f

/-- and(...conditions): the conjunction of every pushed condition. -/
def whereAnd (conds : List (Buyer → Bool)) (b : Buyer) : Bool :=
  conds.all (fun c => c b)

/-- Insert a buyer into a sorted list (the sorting primitive of the
model; structurally recursive, so terms reduce). -/
def insertSorted (le : Buyer → Buyer → Bool) (b : Buyer) : List Buyer → List Buyer
  | [] => [b]
  | x :: xs => if le b x then b :: x :: xs else x :: insertSorted le b xs

/-- Sort the result set with the resolved comparator (the model of the
orderBy clause; only the ordering matters, not the algorithm). -/
def sortBuyers (le : Buyer → Buyer → Bool) : List Buyer → List Buyer
  | [] => []
  | x :: xs => insertSorted le x (sortBuyers le xs)

/-- Postgres orders enum columns by declaration position. -/
def cityOrd : City → Nat
  | .Chandigarh => 0 | .Mohali => 1 | .Zirakpur => 2 | .Panchkula => 3 | .Other => 4

def propertyTypeOrd : PropertyType → Nat
  | .Apartment => 0 | .Villa => 1 | .Plot => 2 | .Office => 3 | .Retail => 4

def bhkOrd : BHK → Nat
  | .B1 => 0 | .B2 => 1 | .B3 => 2 | .B4 => 3 | .Studio => 4

def purposeOrd : Purpose → Nat
  | .Buy => 0 | .Rent => 1

def timelineOrd : Timeline → Nat
  | .T0to3m => 0 | .T3to6m => 1 | .TOver6m => 2 | .Exploring => 3

def sourceOrd : Source → Nat
  | .Website => 0 | .Referral => 1 | .WalkIn => 2 | .Call => 3 | .Other => 4

def statusOrd : Status → Nat
  | .New => 0 | .Qualified => 1 | .Contacted => 2 | .Visited => 3
  | .Negotiation => 4 | .Converted => 5 | .Dropped => 6

/-- Ascending order on a nullable column, nulls sorted last (the
Postgres default for ascending order). -/
def optLeAsc {α : Type} (le : α → α → Bool) : Option α → Option α → Bool
  | none, none => true
  | none, some _ => false
  | some _, none => true
  | some x, some y => le x y

def strLe (a b : String) : Bool := decide (a ≤ b)
def intLe (a b : Int) : Bool := decide (a ≤ b)
def tagsLe (a b : List String) : Bool := decide (a ≤ b)

/-- The ascending comparator of one sortable column, by its property
name on the drizzle table object; none when the name is not a column. -/
def columnLeAsc (field : String) : Option (Buyer → Buyer → Bool) :=
  if field = "id" then some (fun a b => strLe a.id b.id)
  else if field = "fullName" then some (fun a b => strLe a.fullName b.fullName)
  else if field = "email" then some (fun a b => optLeAsc strLe a.email b.email)
  else if field = "phone" then some (fun a b => strLe a.phone b.phone)
  else if field = "city" then some (fun a b => cityOrd a.city ≤ cityOrd b.city)
  else if field = "propertyType" then
    some (fun a b => propertyTypeOrd a.propertyType ≤ propertyTypeOrd b.propertyType)
  else if field = "bhk" then
    some (fun a b => optLeAsc (fun x y => bhkOrd x ≤ bhkOrd y) a.bhk b.bhk)
  else if field = "purpose" then some (fun a b => purposeOrd a.purpose ≤ purposeOrd b.purpose)
  else if field = "budgetMin" then some (fun a b => optLeAsc intLe a.budgetMin b.budgetMin)
  else if field = "budgetMax" then some (fun a b => optLeAsc intLe a.budgetMax b.budgetMax)
  else if field = "timeline" then
    some (fun a b => timelineOrd a.timeline ≤ timelineOrd b.timeline)
  else if field = "source" then some (fun a b => sourceOrd a.source ≤ sourceOrd b.source)
  else if field = "status" then some (fun a b => statusOrd a.status ≤ statusOrd b.status)
  else if field = "notes" then some (fun a b => optLeAsc strLe a.notes b.notes)
  else if field = "tags" then some (fun a b => tagsLe a.tags b.tags)
  else if field = "ownerId" then some (fun a b => strLe a.ownerId b.ownerId)
  else if field = "updatedAt" then some (fun a b => strLe a.updatedAt b.updatedAt)
  else if field = "createdAt" then some (fun a b => strLe a.createdAt b.createdAt)
  else none

/-- The default order: most recently updated first. -/
def descUpdatedAt (a b : Buyer) : Bool :=
  strLe b.updatedAt a.updatedAt

/-- The orderBy resolution: split the sort parameter at the colon; when
both parts are truthy and the field is a column, ascending for asc and
descending for anything else; otherwise the default order. -/
def resolveOrder (sort : Option String) : Buyer → Buyer → Bool :=
  match sort with
  | none => descUpdatedAt
  | some s =>
    match splitOnChar ':' s with
    | field :: direction :: _ =>
      if field ≠ "" && direction ≠ "" then
        match columnLeAsc field with
        | some le => if direction = "asc" then le else fun a b => le b a
        | none => descUpdatedAt
      else descUpdatedAt
    | _ => descUpdatedAt

/-- parseInt(params.page or the string 1); none models NaN. -/
def pageOf (p : ListParams) : Option Int :=
  parseIntJS (match p.page with
              | some s => if s = "" then "1" else s
              | none => "1")

/-- The limit/offset window of the paginated select.  A NaN page would
make the offset invalid at the storage boundary, modelled as an empty
result; a negative offset is clamped. -/
def paginate (page : Option Int) (l : List Buyer) : List Buyer :=
  match page with
  | none => []
  | some pg => (l.drop ((pg - 1) * 10).toNat).take 10

/-- The rows returned by the list-page query: ownership-scoped and
filtered, sorted, then paginated with page size 10. -/
def getBuyersRows (user : UserWithRole) (p : ListParams) (rows : List Buyer) :
    List Buyer :=
  let filtered := rows.filter (whereAnd (buildConditions user p.filters))
  paginate (pageOf p) (sortBuyers (resolveOrder p.sort) filtered)

/-- The total-count query over the same filter set. -/
def getBuyersTotal (user : UserWithRole) (p : ListParams) (rows : List Buyer) : Nat :=
  (rows.filter (whereAnd (buildConditions user p.filters))).length

/-! ## CSV export (exportCSV in src/lib/actions/csv.ts) -/

/-- The buyers selected by the export query: the same conditions as the
list page, no pagination, ordered by updatedAt descending. -/
def exportSelect (user : UserWithRole) (f : QueryFilters) (rows : List Buyer) :
    List Buyer :=
  sortBuyers descUpdatedAt (rows.filter (whereAnd (buildConditions user f)))

/-- JavaScript rendering of a nullable numeric cell: the falsy values
null and 0 both render as the empty string. -/
def csvCellOfOptInt : Option Int → String
  | none => ""
  | some n => if n = 0 then "" else toString n

/-- The sixteen export columns of one buyer, in order. -/
def buyerCsvRow (b : Buyer) : List String :=
  [ b.fullName, b.email.getD "", b.phone, cityToString b.city,
    propertyTypeToString b.propertyType, (b.bhk.map bhkToString).getD "",
    purposeToString b.purpose, csvCellOfOptInt b.budgetMin, csvCellOfOptInt b.budgetMax,
    timelineToString b.timeline, sourceToString b.source, statusToString b.status,
    b.notes.getD "",
    (if b.tags.isEmpty then "" else String.intercalate ", " b.tags),
    b.createdAt, b.updatedAt ]

/-- Every cell is wrapped in double quotes with inner quotes doubled. -/
def csvEscapeChar (c : Char) : String :=
  if c = '"' then "\"\"" else String.singleton c

def csvQuoteField (s : String) : String :=
  "\"" ++ String.join (s.data.map csvEscapeChar) ++ "\""

def exportHeaders : List String :=
  [ "Full Name", "Email", "Phone", "City", "Property Type", "BHK", "Purpose",
    "Budget Min", "Budget Max", "Timeline", "Source", "Status", "Notes", "Tags",
    "Created At", "Updated At" ]

/-- The CSV text: the header row then one quoted line per selected
buyer. -/
def exportCSVContent (user : UserWithRole) (f : QueryFilters) (rows : List Buyer) :
    String :=
  String.intercalate "\n"
    ((exportHeaders :: (exportSelect user f rows).map buyerCsvRow).map
      (fun row => String.intercalate "," (row.map csvQuoteField)))

/-! ## CSV import (importCSV in src/lib/actions/csv.ts) -/

/-- One parsed CSV record after papaparse header normalization
(trimmed, lowercased, whitespace removed); only the columns the import
reads are modelled, each present or absent. -/
structure CsvRow where
  fullname : Option String
  fullUnderscoreName : Option String
  email : Option String
  phone : Option String
  phonenumber : Option String
  city : Option String
  propertytype : Option String
  propertyUnderscoreType : Option String
  bhk : Option String
  purpose : Option String
  budgetmin : Option String
  budgetMinUnderscore : Option String
  budgetmax : Option String
  budgetMaxUnderscore : Option String
  timeline : Option String
  source : Option String
  notes : Option String
  tags : Option String
deriving DecidableEq, Repr

def sampleRaw : RawBuyer :=
  { fullName := "John Doe"
    email := none
    phone := "9876543210"
    city := "Chandigarh"
    propertyType := "Apartment"
    bhk := some "2"
    purpose := "Buy"
    budgetMin := none
    budgetMax := none
    timeline := "3-6m"
    source := "Website"
    status := none
    notes := none
    tags := [] }

def sampleData : BuyerData :=
  { fullName := "John Doe"
    email := none
    phone := "9876543210"
    city := .Chandigarh
    propertyType := .Apartment
    bhk := some .B2
    purpose := .Buy
    budgetMin := none
    budgetMax := none
    timeline := .T3to6m
    source := .Website
    status := .New
    notes := none
    tags := [] }

def c6Raw : RawBuyer := { sampleRaw with bhk := none }

def c6Data : BuyerData := { sampleData with bhk := none }

def c8Raw : RawBuyer :=
  { sampleRaw with
    bhk := none
    budgetMin := some (.jstr "-5")
    budgetMax := some (.jstr "-10") }

def c8Data : BuyerData :=
  { sampleData with
    bhk := none
    budgetMin := some (-5)
    budgetMax := some (-10) }

def c7ZeroRaw : RawBuyer := { sampleRaw with budgetMin := some (.jnum 0) }

def c7NegRaw : RawBuyer := { sampleRaw with budgetMin := some (.jstr "-5") }

def sampleUuid : String := "11111111-1111-1111-1111-111111111111"

def sampleBuyer : Buyer :=
  { id := sampleUuid
    fullName := "John Doe"
    email := some "john@example.com"
    phone := "9876543210"
    city := .Chandigarh
    propertyType := .Apartment
    bhk := some .B2
    purpose := .Buy
    budgetMin := some 5000000
    budgetMax := some 10000000
    timeline := .T3to6m
    source := .Website
    status := .New
    notes := some "note"
    tags := ["urgent"]
    ownerId := "u1"
    updatedAt := "2024-01-01T00:00:00.000Z"
    createdAt := "2024-01-01T00:00:00.000Z" }

def sampleOwner : UserWithRole :=
  { id := "u1", email := some "owner@example.com", isAdmin := false }

def sampleDb : DbState := { buyers := [sampleBuyer], history := [] }

/-- An update form submitting exactly the stored values with the current
concurrency token. -/
def updateRawIdentical : UpdateRaw :=
  { id := sampleUuid
    fullName := some "John Doe"
    email := some "john@example.com"
    phone := some "9876543210"
    city := some "Chandigarh"
    propertyType := some "Apartment"
    bhk := some "2"
    purpose := some "Buy"
    budgetMin := some (.jnum 5000000)
    budgetMax := some (.jnum 10000000)
    timeline := some "3-6m"
    source := some "Website"
    status := some "New"
    notes := some "note"
    tags := ["urgent"]
    updatedAt := some "2024-01-01T00:00:00.000Z" }

def updateRawStale : UpdateRaw :=
  { updateRawIdentical with updatedAt := some "2023-12-31T00:00:00.000Z" }

/-- The same form with an empty concurrency token. -/
def updateRawEmptyToken : UpdateRaw :=
  { updateRawIdentical with fullName := some "Jane", updatedAt := some "" }

/-- The same form with the updatedAt field missing (null). -/
def updateRawNullToken : UpdateRaw :=
  { updateRawIdentical with updatedAt := none }

def updateDataEmptyToken : UpdateData :=
  { id := sampleUuid
    fullName := "Jane"
    email := some "john@example.com"
    phone := "9876543210"
    city := .Chandigarh
    propertyType := .Apartment
    bhk := some .B2
    purpose := .Buy
    budgetMin := some 5000000
    budgetMax := some 10000000
    timeline := .T3to6m
    source := .Website
    status := .New
    notes := some "note"
    tags := ["urgent"]
    updatedAt := "" }

def updateDataIdentical : UpdateData :=
  { updateDataEmptyToken with
    fullName := "John Doe"
    updatedAt := "2024-01-01T00:00:00.000Z" }

def otherBuyer : Buyer := { sampleBuyer with id := "x2", ownerId := "u2" }

def defaultListParams : ListParams :=
  { page := none, search := none, city := none, propertyType := none,
    status := none, timeline := none, sort := none }

def defaultFilters : QueryFilters :=
  { search := none, city := none, propertyType := none, status := none,
    timeline := none }

def sampleCsvRow : CsvRow :=
  { fullname := some "Jane"
    fullUnderscoreName := none
    email := none
    phone := some "1234567890"
    phonenumber := none
    city := some "Mohali"
    propertytype := some "Plot"
    propertyUnderscoreType := none
    bhk := none
    purpose := some "Buy"
    budgetmin := none
    budgetMinUnderscore := none
    budgetmax := none
    budgetMaxUnderscore := none
    timeline := some "0-3m"
    source := some "Call"
    notes := none
    tags := some "a, b" }

def badCsvRow : CsvRow := { sampleCsvRow with purpose := some "Invalid" }

theorem parseFields_ok_proj {r : RawBuyer} {d : BuyerData}
    (h : parseFields r = .ok d) :
    d.budgetMin = coerceBudget r.budgetMin ∧ d.budgetMax = coerceBudget r.budgetMax := by
  unfold parseFields at h
  split at h
  · injection h with h'
    subst h'
    exact ⟨rfl, rfl⟩
  · simp at h

theorem refineBhkOk_false_iff {pt : PropertyType} {bhk : Option BHK} :
    refineBhkOk pt bhk = false ↔ (pt = .Apartment ∨ pt = .Villa) ∧ bhk = none := by
  cases pt <;> cases bhk <;> simp [refineBhkOk]

theorem refineBudgetOrderOk_false_iff {bmin bmax : Option Int} :
    refineBudgetOrderOk bmin bmax = false ↔
      ∃ m M, bmin = some m ∧ bmax = some M ∧ m ≠ 0 ∧ M ≠ 0 ∧ M < m := by
  cases bmin <;> cases bmax <;> simp [refineBudgetOrderOk] <;> tauto

theorem refineBudgetMinPosOk_false_iff {bmin : Option Int} :
    refineBudgetMinPosOk bmin = false ↔ ∃ m, bmin = some m ∧ m ≤ 0 := by
  cases bmin <;> simp [refineBudgetMinPosOk]

theorem refineBudgetMaxPosOk_false_iff {bmax : Option Int} :
    refineBudgetMaxPosOk bmax = false ↔ ∃ m, bmax = some m ∧ m ≤ 0 := by
  cases bmax <;> simp [refineBudgetMaxPosOk]

theorem mem_refineIssuesCore (i : Issue) (pt : PropertyType) (bhk : Option BHK)
    (bmin bmax : Option Int) :
    i ∈ refineIssuesCore pt bhk bmin bmax ↔
      (i = bhkRequiredIssue ∧ refineBhkOk pt bhk = false) ∨
      (i = budgetOrderIssue ∧ refineBudgetOrderOk bmin bmax = false) ∨
      (i = budgetMinPosIssue ∧ refineBudgetMinPosOk bmin = false) ∨
      (i = budgetMaxPosIssue ∧ refineBudgetMaxPosOk bmax = false) := by
  unfold refineIssuesCore
  split <;> split <;> split <;> split <;> simp_all

theorem refineIssuesCore_sublist (pt : PropertyType) (bhk : Option BHK)
    (bmin bmax : Option Int) :
    List.Sublist (refineIssuesCore pt bhk bmin bmax)
      [bhkRequiredIssue, budgetOrderIssue, budgetMinPosIssue, budgetMaxPosIssue] := by
  unfold refineIssuesCore
  split <;> split <;> split <;> split <;> decide

theorem buyerSchemaParse_eq_of_parse {r : RawBuyer} {d : BuyerData}
    (h : parseFields r = .ok d) :
    buyerSchemaParse r =
      (match refineIssues d with
       | [] => Except.ok d
       | is => Except.error is) := by
  simp only [buyerSchemaParse, h]

theorem buyerSchemaParse_err_of_refine {r : RawBuyer} {d : BuyerData}
    (h : parseFields r = .ok d) (hne : refineIssues d ≠ []) :
    buyerSchemaParse r = .error (refineIssues d) := by
  rw [buyerSchemaParse_eq_of_parse h]
  cases hri : refineIssues d with
  | nil => exact absurd hri hne
  | cons a l => rfl

theorem buyerSchemaParse_isOk_iff (r : RawBuyer) :
    (buyerSchemaParse r).isOk = true ↔
      ∃ d, parseFields r = .ok d ∧ refineIssues d = [] := by
  unfold buyerSchemaParse
  cases hp : parseFields r with
  | error is => simp [Except.isOk, Except.toBool]
  | ok d =>
    cases hri : refineIssues d with
    | nil => simp [Except.isOk, Except.toBool, hri]
    | cons a l => simp [Except.isOk, Except.toBool, hri]

theorem buyerSchemaParse_ok_iff {r : RawBuyer} {d : BuyerData} :
    buyerSchemaParse r = .ok d ↔ parseFields r = .ok d ∧ refineIssues d = [] := by
  cases hp : parseFields r with
  | error is =>
    have he : buyerSchemaParse r = .error is := by
      simp only [buyerSchemaParse, hp]
    rw [he]
    constructor
    · intro h
      exact Except.noConfusion h
    · rintro ⟨h1, -⟩
      exact Except.noConfusion h1
  | ok d' =>
    rw [buyerSchemaParse_eq_of_parse hp]
    constructor
    · intro h
      cases hri : refineIssues d' with
      | nil =>
        rw [hri] at h
        injection h with h'
        subst h'
        exact ⟨rfl, hri⟩
      | cons a l =>
        rw [hri] at h
        exact Except.noConfusion h
    · rintro ⟨h1, h2⟩
      injection h1 with h'
      subst h'
      rw [h2]

/-! ## Claim theorems -/

/-- C3: canEditBuyer(caller, ownerId) is true exactly when the caller id
equals the owner id or isAdmin(caller) holds, and isAdmin holds exactly
when the user_metadata role claim is admin, or the app_metadata role
claim is admin, or the email is the fixed demo admin address — which
settles all four cells of the admin and owner matrix. -/
theorem claim_C3_canEditBuyer_matrix (u : SupabaseUser) (ownerId : String) :
    (canEditBuyer (getCurrentUserModel u) ownerId = true ↔
       u.id = ownerId ∨ computeIsAdmin u = true) ∧
    (computeIsAdmin u = true ↔
       u.userMetaRole = some "admin" ∨ u.appMetaRole = some "admin" ∨
         u.email = some demoAdminEmail) := by
  constructor
  · simp [canEditBuyer, getCurrentUserModel]
    tauto
  · simp [computeIsAdmin]
    tauto

/-- Witness for C3: the demo-admin email alone grants isAdmin, and an
ordinary caller may edit exactly their own record. -/
theorem claim_C3_witness :
    computeIsAdmin ⟨"a1", some demoAdminEmail, none, none⟩ = true ∧
    canEditBuyer (getCurrentUserModel ⟨"u1", none, none, none⟩) "u1" = true :=
  ⟨(claim_C3_canEditBuyer_matrix ⟨"a1", some demoAdminEmail, none, none⟩ "o1").2.mpr
      (Or.inr (Or.inr rfl)),
   (claim_C3_canEditBuyer_matrix ⟨"u1", none, none, none⟩ "u1").1.mpr (Or.inl rfl)⟩

/-- C6: when the parsed property type is Apartment or Villa and bhk is
absent, buyerSchema validation fails and reports the bhk-required issue;
for any other property type the bhk-required rule never fires, with or
without a bhk value. -/
theorem claim_C6_bhk_conditional_requirement (r : RawBuyer) (d : BuyerData)
    (h : parseFields r = .ok d) :
    ((d.propertyType = .Apartment ∨ d.propertyType = .Villa) → d.bhk = none →
       buyerSchemaParse r = .error (refineIssues d) ∧
         bhkRequiredIssue ∈ refineIssues d) ∧
    (d.propertyType ≠ .Apartment → d.propertyType ≠ .Villa →
       bhkRequiredIssue ∉ refineIssues d) := by
  constructor
  · intro hpt hb
    have hbhk : refineBhkOk d.propertyType d.bhk = false :=
      refineBhkOk_false_iff.mpr ⟨hpt, hb⟩
    have hmem : bhkRequiredIssue ∈ refineIssues d := by
      rw [refineIssues, mem_refineIssuesCore]
      exact Or.inl ⟨rfl, hbhk⟩
    refine ⟨buyerSchemaParse_err_of_refine h ?_, hmem⟩
    intro hnil
    rw [hnil] at hmem
    exact List.not_mem_nil _ hmem
  · intro h1 h2 hmem
    rw [refineIssues, mem_refineIssuesCore] at hmem
    rcases hmem with ⟨_, hf⟩ | ⟨he, _⟩ | ⟨he, _⟩ | ⟨he, _⟩
    · rcases refineBhkOk_false_iff.mp hf with ⟨hpt, _⟩
      rcases hpt with hpt | hpt
      · exact h1 hpt
      · exact h2 hpt
    · exact absurd he (by decide)
    · exact absurd he (by decide)
    · exact absurd he (by decide)

/-- C8: after a successful base parse the four cross-field refinements
run in the order bhk-required, budget-order, budget-min-positive,
budget-max-positive, each issue is reported exactly when its rule is
violated, all collected issues are returned together, and the issue list
is ordered as a sublist of the four rules in that order. -/
theorem claim_C8_refinement_order_and_collection (r : RawBuyer) (d : BuyerData)
    (h : parseFields r = .ok d) :
    (refineIssues d ≠ [] → buyerSchemaParse r = .error (refineIssues d)) ∧
    (refineIssues d = [] → buyerSchemaParse r = .ok d) ∧
    (bhkRequiredIssue ∈ refineIssues d ↔
       (d.propertyType = .Apartment ∨ d.propertyType = .Villa) ∧ d.bhk = none) ∧
    (budgetOrderIssue ∈ refineIssues d ↔
       ∃ m M, d.budgetMin = some m ∧ d.budgetMax = some M ∧ m ≠ 0 ∧ M ≠ 0 ∧ M < m) ∧
    (budgetMinPosIssue ∈ refineIssues d ↔ ∃ m, d.budgetMin = some m ∧ m ≤ 0) ∧
    (budgetMaxPosIssue ∈ refineIssues d ↔ ∃ m, d.budgetMax = some m ∧ m ≤ 0) ∧
    List.Sublist (refineIssues d)
      [bhkRequiredIssue, budgetOrderIssue, budgetMinPosIssue, budgetMaxPosIssue] := by
  refine ⟨fun hne => buyerSchemaParse_err_of_refine h hne, fun hnil => ?_, ?_, ?_, ?_, ?_,
    refineIssuesCore_sublist _ _ _ _⟩
  · rw [buyerSchemaParse_eq_of_parse h, hnil]
  · rw [refineIssues, mem_refineIssuesCore, ← refineBhkOk_false_iff]
    simp [show bhkRequiredIssue ≠ budgetOrderIssue from by decide,
      show bhkRequiredIssue ≠ budgetMinPosIssue from by decide,
      show bhkRequiredIssue ≠ budgetMaxPosIssue from by decide]
  · rw [refineIssues, mem_refineIssuesCore, ← refineBudgetOrderOk_false_iff]
    simp [show budgetOrderIssue ≠ bhkRequiredIssue from by decide,
      show budgetOrderIssue ≠ budgetMinPosIssue from by decide,
      show budgetOrderIssue ≠ budgetMaxPosIssue from by decide]
  · rw [refineIssues, mem_refineIssuesCore, ← refineBudgetMinPosOk_false_iff]
    simp [show budgetMinPosIssue ≠ bhkRequiredIssue from by decide,
      show budgetMinPosIssue ≠ budgetOrderIssue from by decide,
      show budgetMinPosIssue ≠ budgetMaxPosIssue from by decide]
  · rw [refineIssues, mem_refineIssuesCore, ← refineBudgetMaxPosOk_false_iff]
    simp [show budgetMaxPosIssue ≠ bhkRequiredIssue from by decide,
      show budgetMaxPosIssue ≠ budgetOrderIssue from by decide,
      show budgetMaxPosIssue ≠ budgetMinPosIssue from by decide]

/-- Witness for C6 at a concrete Apartment input without a bhk value. -/
theorem claim_C6_witness :
    buyerSchemaParse c6Raw = .error (refineIssues c6Data) ∧
      bhkRequiredIssue ∈ refineIssues c6Data :=
  (claim_C6_bhk_conditional_requirement c6Raw c6Data (by decide)).1
    (Or.inl (by decide)) (by decide)

/-- Witness for C8: one submission violating all four rules reports all
four issues together, in rule order. -/
theorem claim_C8_witness :
    buyerSchemaParse c8Raw =
      .error [bhkRequiredIssue, budgetOrderIssue, budgetMinPosIssue, budgetMaxPosIssue] := by
  have h := (claim_C8_refinement_order_and_collection c8Raw c8Data (by decide)).1 (by decide)
  rw [h]
  decide

/-- C7 counterexample: a budget bound provided as the number zero is a
provided zero value, yet buyerSchema validation succeeds, because the
coercion treats the falsy number 0 as absent. -/
theorem claim_C7_counterexample :
    c7ZeroRaw.budgetMin = some (JSVal.jnum 0) ∧
      (buyerSchemaParse c7ZeroRaw).isOk = true := by decide

theorem budgetMin_nonpos_fails {r : RawBuyer} {m : Int}
    (hc : coerceBudget r.budgetMin = some m) (hm : m ≤ 0) :
    (buyerSchemaParse r).isOk = false := by
  rw [Bool.eq_false_iff]
  intro hok
  obtain ⟨d, hp, hri⟩ := (buyerSchemaParse_isOk_iff r).mp hok
  have hd := (parseFields_ok_proj hp).1
  have hmem : budgetMinPosIssue ∈ refineIssues d := by
    rw [refineIssues, mem_refineIssuesCore]
    refine Or.inr (Or.inr (Or.inl ⟨rfl, refineBudgetMinPosOk_false_iff.mpr ⟨m, ?_, hm⟩⟩))
    rw [hd, hc]
  rw [hri] at hmem
  exact List.not_mem_nil _ hmem

theorem budgetMax_nonpos_fails {r : RawBuyer} {m : Int}
    (hc : coerceBudget r.budgetMax = some m) (hm : m ≤ 0) :
    (buyerSchemaParse r).isOk = false := by
  rw [Bool.eq_false_iff]
  intro hok
  obtain ⟨d, hp, hri⟩ := (buyerSchemaParse_isOk_iff r).mp hok
  have hd := (parseFields_ok_proj hp).2
  have hmem : budgetMaxPosIssue ∈ refineIssues d := by
    rw [refineIssues, mem_refineIssuesCore]
    refine Or.inr (Or.inr (Or.inr ⟨rfl, refineBudgetMaxPosOk_false_iff.mpr ⟨m, ?_, hm⟩⟩))
    rw [hd, hc]
  rw [hri] at hmem
  exact List.not_mem_nil _ hmem

theorem coerceBudget_jstr_of_parse {s : String} {n : Int}
    (h : parseIntJS s = some n) :
    coerceBudget (some (.jstr s)) = some n := by
  have hs : s ≠ "" := by
    intro he
    subst he
    rw [show parseIntJS "" = none from by decide] at h
    exact Option.noConfusion h
  simp [coerceBudget, jsTruthy, hs, h]

/-- C7 (amended): a budget bound provided as a negative number, or as a
string that parseInt maps to a non-positive integer, always fails
validation regardless of the other bound; but the number 0 is falsy and
is coerced to absent (so a numeric zero passes validation), as are
non-numeric and empty strings, which become absent rather than zero; and
in every successfully validated record each present budget bound is a
positive integer. -/
theorem claim_C7_budget_positivity (r : RawBuyer) :
    (∀ n : Int, r.budgetMin = some (.jnum n) → n < 0 →
       (buyerSchemaParse r).isOk = false) ∧
    (∀ (s : String) (n : Int), r.budgetMin = some (.jstr s) → parseIntJS s = some n →
       n ≤ 0 → (buyerSchemaParse r).isOk = false) ∧
    (∀ n : Int, r.budgetMax = some (.jnum n) → n < 0 →
       (buyerSchemaParse r).isOk = false) ∧
    (∀ (s : String) (n : Int), r.budgetMax = some (.jstr s) → parseIntJS s = some n →
       n ≤ 0 → (buyerSchemaParse r).isOk = false) ∧
    coerceBudget (some (.jnum 0)) = none ∧
    (∀ s : String, parseIntJS s = none → coerceBudget (some (.jstr s)) = none) ∧
    coerceBudget (some (.jstr "")) = none ∧
    (∀ d, buyerSchemaParse r = .ok d →
       (∀ n, d.budgetMin = some n → 0 < n) ∧ (∀ n, d.budgetMax = some n → 0 < n)) := by
  refine ⟨?_, ?_, ?_, ?_, by decide, ?_, by decide, ?_⟩
  · intro n hn hneg
    refine budgetMin_nonpos_fails (m := n) ?_ (le_of_lt hneg)
    rw [hn]
    simp [coerceBudget, jsTruthy, show n ≠ 0 from by omega]
  · intro s n hs hparse hle
    refine budgetMin_nonpos_fails (m := n) ?_ hle
    rw [hs]
    exact coerceBudget_jstr_of_parse hparse
  · intro n hn hneg
    refine budgetMax_nonpos_fails (m := n) ?_ (le_of_lt hneg)
    rw [hn]
    simp [coerceBudget, jsTruthy, show n ≠ 0 from by omega]
  · intro s n hs hparse hle
    refine budgetMax_nonpos_fails (m := n) ?_ hle
    rw [hs]
    exact coerceBudget_jstr_of_parse hparse
  · intro s hnone
    simp [coerceBudget, jsTruthy, hnone]
  · intro d hok
    obtain ⟨hp, hri⟩ := buyerSchemaParse_ok_iff.mp hok
    constructor
    · intro n hn
      by_contra hle
      push_neg at hle
      have hmem : budgetMinPosIssue ∈ refineIssues d := by
        rw [refineIssues, mem_refineIssuesCore]
        exact Or.inr (Or.inr (Or.inl ⟨rfl,
          refineBudgetMinPosOk_false_iff.mpr ⟨n, hn, hle⟩⟩))
      rw [hri] at hmem
      exact List.not_mem_nil _ hmem
    · intro n hn
      by_contra hle
      push_neg at hle
      have hmem : budgetMaxPosIssue ∈ refineIssues d := by
        rw [refineIssues, mem_refineIssuesCore]
        exact Or.inr (Or.inr (Or.inr ⟨rfl,
          refineBudgetMaxPosOk_false_iff.mpr ⟨n, hn, hle⟩⟩))
      rw [hri] at hmem
      exact List.not_mem_nil _ hmem

/-- Witness for the amended C7 at concrete inputs: a negative string
budget fails validation, and a non-numeric budget string is coerced to
absent. -/
theorem claim_C7_witness :
    (buyerSchemaParse c7NegRaw).isOk = false ∧
      coerceBudget (some (.jstr "abc")) = none := by
  constructor
  · exact (claim_C7_budget_positivity c7NegRaw).2.1 "-5" (-5) (by decide) (by decide)
      (by decide)
  · exact (claim_C7_budget_positivity c7NegRaw).2.2.2.2.2.1 "abc" (by decide)

theorem rlGet_rlSet_self (cache : RLCache) (key : String) (v : Nat) :
    rlGet (rlSet cache key v) key = v := by
  induction cache with
  | nil => simp [rlSet, rlGet, List.find?]
  | cons p rest ih =>
    by_cases h : p.1 == key
    · simp [rlSet, h, rlGet, List.find?]
    · simp only [rlSet, h, Bool.false_eq_true, if_false]
      rw [show rlGet (p :: rlSet rest key v) key = rlGet (rlSet rest key v) key from by
        simp [rlGet, List.find?, h]]
      exact ih

theorem admittedCount_le (userId : String) (n : Nat) (cache : RLCache) :
    admittedCount userId n cache + min (rlGet cache (rateLimitKey userId)) 10 ≤ 10 := by
  induction n generalizing cache with
  | zero =>
    simp [admittedCount]
  | succ n ih =>
    by_cases h : rlGet cache (rateLimitKey userId) ≥ 10
    · have := ih cache
      simp [admittedCount, checkRateLimit, h]
      omega
    · have h2 := ih (rlSet cache (rateLimitKey userId) (rlGet cache (rateLimitKey userId) + 1))
      rw [rlGet_rlSet_self] at h2
      simp [admittedCount, checkRateLimit, h]
      omega

/-- C9: one rate-limit check admits exactly when the callers counter is
below the threshold of 10, an admission increments the counter by one, a
rejection leaves the cache untouched, and hence any sequence of checks
within one time-to-live window admits at most 10 requests for the
caller. -/
theorem claim_C9_rate_limiter (userId : String) (cache : RLCache) (n : Nat) :
    ((checkRateLimit userId 10 cache).1 = true ↔
       rlGet cache (rateLimitKey userId) < 10) ∧
    ((checkRateLimit userId 10 cache).1 = true →
       rlGet (checkRateLimit userId 10 cache).2 (rateLimitKey userId) =
         rlGet cache (rateLimitKey userId) + 1) ∧
    ((checkRateLimit userId 10 cache).1 = false →
       (checkRateLimit userId 10 cache).2 = cache) ∧
    admittedCount userId n cache + min (rlGet cache (rateLimitKey userId)) 10 ≤ 10 := by
  refine ⟨?_, ?_, ?_, admittedCount_le userId n cache⟩
  · unfold checkRateLimit
    by_cases h : rlGet cache (rateLimitKey userId) ≥ 10 <;> simp [h] <;> omega
  · intro hok
    unfold checkRateLimit at hok ⊢
    by_cases h : rlGet cache (rateLimitKey userId) ≥ 10
    · simp [h] at hok
    · simp [h, rlGet_rlSet_self]
  · intro hrej
    unfold checkRateLimit at hrej ⊢
    by_cases h : rlGet cache (rateLimitKey userId) ≥ 10
    · simp [h]
    · simp [h] at hrej

/-- Witness for C9 at a concrete caller, an empty cache and a sequence
of 25 checks. -/
theorem claim_C9_witness :
    admittedCount "u1" 25 [] + min (rlGet [] (rateLimitKey "u1")) 10 ≤ 10 ∧
      ((checkRateLimit "u1" 10 []).1 = true ↔ rlGet [] (rateLimitKey "u1") < 10) :=
  ⟨(claim_C9_rate_limiter "u1" [] 25).2.2.2, (claim_C9_rate_limiter "u1" [] 25).1⟩

/-- C1: an update request that reaches the concurrency check (admitted,
valid, record found, caller authorized) and submits a non-empty
updatedAt token different from the stored records current updatedAt
fails with the Conflict error, and the returned database is exactly the
input database: neither the BuyerLead record nor its history is
touched. -/
theorem claim_C1_stale_token_conflict (user : UserWithRole) (cache : RLCache)
    (raw : UpdateRaw) (db : DbState) (now : String) (cur : Buyer) (t : String)
    (hrl : (checkRateLimit user.id 10 cache).1 = true)
    (hvalid : (updateBuyerSchemaParse raw).isOk = true)
    (hfound : findBuyer db raw.id = some cur)
    (hauth : canEditBuyer user cur.ownerId = true)
    (htok : raw.updatedAt = some t) (hne : t ≠ "") (hstale : cur.updatedAt ≠ t) :
    updateBuyer user cache raw db now =
      ((checkRateLimit user.id 10 cache).2, db, .error .conflict) := by
  obtain ⟨d, hd⟩ : ∃ d, updateBuyerSchemaParse raw = .ok d := by
    cases hv : updateBuyerSchemaParse raw with
    | ok d => exact ⟨d, rfl⟩
    | error is =>
      rw [hv] at hvalid
      simp [Except.isOk, Except.toBool] at hvalid
  have hmm : submittedTokenMismatch raw.updatedAt cur.updatedAt = true := by
    rw [htok]
    simp [submittedTokenMismatch, hne, hstale]
  rcases hcc : checkRateLimit user.id 10 cache with ⟨ok, c⟩
  rw [hcc] at hrl
  simp only at hrl
  subst hrl
  simp [updateBuyer, hcc, hd, hfound, hauth, hmm]

/-- C10 counterexample: an update request whose updatedAt field is
absent from the form (null) does not proceed and overwrite — it is
rejected by schema validation, because Zod optional accepts undefined
but not null. -/
theorem claim_C10_counterexample :
    (updateBuyer sampleOwner [] updateRawNullToken sampleDb
        "2024-03-01T00:00:00.000Z").2.2 =
      .error (.validationFailed [⟨"updatedAt", "Expected string, received null"⟩]) ∧
    (updateBuyer sampleOwner [] updateRawNullToken sampleDb
        "2024-03-01T00:00:00.000Z").2.1 = sampleDb := by decide

theorem updateParseFields_null_token {r : UpdateRaw} (htok : r.updatedAt = none) :
    updateParseFields r = .error (updateFieldIssues r) := by
  unfold updateParseFields
  split
  · next heq =>
    rw [htok] at heq
    simp [parseFromForm] at heq
  · rfl

theorem updateBuyerSchemaParse_null_token {r : UpdateRaw} (htok : r.updatedAt = none) :
    updateBuyerSchemaParse r = .error (updateFieldIssues r) := by
  unfold updateBuyerSchemaParse
  rw [updateParseFields_null_token htok]

/-- C10 (amended): an update request whose submitted updatedAt token is
the empty string performs no optimistic-concurrency comparison at all —
the update proceeds and overwrites the current record without any
Conflict error, even if the record was modified after the caller last
read it; a request whose updatedAt field is absent (null) never reaches
the comparison either, but because schema validation rejects the null,
so nothing is written. -/
theorem claim_C10_falsy_token_skips_check (user : UserWithRole) (cache : RLCache)
    (raw : UpdateRaw) (db : DbState) (now : String) :
    (∀ (cur : Buyer) (d : UpdateData),
       (checkRateLimit user.id 10 cache).1 = true →
       updateBuyerSchemaParse raw = .ok d →
       findBuyer db raw.id = some cur →
       canEditBuyer user cur.ownerId = true →
       raw.updatedAt = some "" →
       updateBuyer user cache raw db now =
         ((checkRateLimit user.id 10 cache).2,
          { buyers := db.buyers.map
              (fun b => if b.id == raw.id then applyUpdate b d now else b)
            history := db.history ++
              (if (computeChanges cur d).isEmpty then []
               else [{ buyerId := raw.id, changedBy := user.id,
                       diff := computeChanges cur d }]) },
          .ok ())) ∧
    (raw.updatedAt = none →
       updateBuyerSchemaParse raw = .error (updateFieldIssues raw) ∧
       (updateBuyer user cache raw db now).2.1 = db ∧
       (updateBuyer user cache raw db now).2.2 ≠ .ok ()) := by
  constructor
  · intro cur d hrl hvalid hfound hauth htok
    have hmm : submittedTokenMismatch raw.updatedAt cur.updatedAt = false := by
      simp [submittedTokenMismatch, htok]
    rcases hcc : checkRateLimit user.id 10 cache with ⟨ok, c⟩
    rw [hcc] at hrl
    simp only at hrl
    subst hrl
    simp [updateBuyer, hcc, hvalid, hfound, hauth, hmm]
  · intro htok
    have hparse := updateBuyerSchemaParse_null_token htok
    refine ⟨hparse, ?_⟩
    rcases hcc : checkRateLimit user.id 10 cache with ⟨ok, c⟩
    cases ok <;> simp [updateBuyer, hcc, hparse]

/-- C2 counterexample: a status change submitting the records current
status is a successful mutation of the status-change pipeline that
changes no tracked field, yet exactly one HistoryEntry is appended (with
diff status New to New). -/
theorem claim_C2_counterexample :
    sampleBuyer.status = Status.New ∧
    (updateBuyerStatus sampleOwner [] sampleUuid "New" sampleDb
        "2024-02-01T00:00:00.000Z").2.2 = .ok () ∧
    (updateBuyerStatus sampleOwner [] sampleUuid "New" sampleDb
        "2024-02-01T00:00:00.000Z").2.1.history.length =
      sampleDb.history.length + 1 := by decide

/-- C2 (amended): for every successful mutation through updateBuyer,
exactly one HistoryEntry is appended when the computed serialized diff
is non-empty and none is appended when it is empty; the status-change
pipeline, by contrast, always appends exactly one HistoryEntry with diff
status old to new, even when the submitted status equals the current
one. -/
theorem claim_C2_history_writes (user : UserWithRole) (cache : RLCache)
    (raw : UpdateRaw) (db : DbState) (now : String) (bid stStr : String) :
    (∀ (cur : Buyer) (d : UpdateData),
       (checkRateLimit user.id 10 cache).1 = true →
       updateBuyerSchemaParse raw = .ok d →
       findBuyer db raw.id = some cur →
       canEditBuyer user cur.ownerId = true →
       submittedTokenMismatch raw.updatedAt cur.updatedAt = false →
       (updateBuyer user cache raw db now).2.2 = .ok () ∧
       (updateBuyer user cache raw db now).2.1.history =
         db.history ++
           (if (computeChanges cur d).isEmpty then []
            else [{ buyerId := raw.id, changedBy := user.id,
                    diff := computeChanges cur d }])) ∧
    (∀ (cur : Buyer) (st : Status),
       (checkRateLimit user.id 10 cache).1 = true →
       findBuyer db bid = some cur →
       canEditBuyer user cur.ownerId = true →
       statusFromString stStr = some st →
       (updateBuyerStatus user cache bid stStr db now).2.2 = .ok () ∧
       (updateBuyerStatus user cache bid stStr db now).2.1.history =
         db.history ++
           [{ buyerId := bid, changedBy := user.id,
              diff := [("status", some (jsonQuote (statusToString cur.status)),
                        some (jsonQuote stStr))] }]) := by
  constructor
  · intro cur d hrl hvalid hfound hauth hmm
    rcases hcc : checkRateLimit user.id 10 cache with ⟨ok, c⟩
    rw [hcc] at hrl
    simp only at hrl
    subst hrl
    constructor <;> simp [updateBuyer, hcc, hvalid, hfound, hauth, hmm]
  · intro cur st hrl hfound hauth hst
    rcases hcc : checkRateLimit user.id 10 cache with ⟨ok, c⟩
    rw [hcc] at hrl
    simp only at hrl
    subst hrl
    constructor <;> simp [updateBuyerStatus, hcc, hfound, hauth, hst]

/-- Witness for C1: a concrete stale-token update fails with Conflict
and returns the database unchanged. -/
theorem claim_C1_witness :
    updateBuyer sampleOwner [] updateRawStale sampleDb "2024-03-01T00:00:00.000Z" =
      ((checkRateLimit sampleOwner.id 10 []).2, sampleDb, .error .conflict) :=
  claim_C1_stale_token_conflict sampleOwner [] updateRawStale sampleDb
    "2024-03-01T00:00:00.000Z" sampleBuyer "2023-12-31T00:00:00.000Z"
    (by decide) (by decide) (by decide) (by decide) (by decide) (by decide) (by decide)

/-- Witness for the amended C10: a concrete update with an empty-string
token succeeds and overwrites although the stored updatedAt matches
nothing the caller submitted, while the null-token variant writes
nothing. -/
theorem claim_C10_witness :
    (updateBuyer sampleOwner [] updateRawEmptyToken sampleDb
        "2024-03-01T00:00:00.000Z").2.2 = .ok () ∧
    (updateBuyer sampleOwner [] updateRawNullToken sampleDb
        "2024-03-01T00:00:00.000Z").2.1 = sampleDb := by
  constructor
  · rw [(claim_C10_falsy_token_skips_check sampleOwner [] updateRawEmptyToken sampleDb
      "2024-03-01T00:00:00.000Z").1 sampleBuyer updateDataEmptyToken
      (by decide) (by decide) (by decide) (by decide) (by decide)]
  · exact ((claim_C10_falsy_token_skips_check sampleOwner [] updateRawNullToken sampleDb
      "2024-03-01T00:00:00.000Z").2 (by decide)).2.1

/-- Witness for the amended C2: an identical-values update writes no
history, while a status change always appends exactly one entry. -/
theorem claim_C2_witness :
    (updateBuyer sampleOwner [] updateRawIdentical sampleDb
        "2024-03-01T00:00:00.000Z").2.1.history = sampleDb.history ∧
    (updateBuyerStatus sampleOwner [] sampleUuid "Qualified" sampleDb
        "2024-03-01T00:00:00.000Z").2.1.history.length = sampleDb.history.length + 1 := by
  constructor
  · have h := ((claim_C2_history_writes sampleOwner [] updateRawIdentical sampleDb
      "2024-03-01T00:00:00.000Z" sampleUuid "Qualified").1 sampleBuyer updateDataIdentical
      (by decide) (by decide) (by decide) (by decide) (by decide)).2
    rw [h]
    decide
  · have h := ((claim_C2_history_writes sampleOwner [] updateRawIdentical sampleDb
      "2024-03-01T00:00:00.000Z" sampleUuid "Qualified").2 sampleBuyer Status.Qualified
      (by decide) (by decide) (by decide) (by decide)).2
    rw [h]
    simp

theorem mem_insertSorted {le : Buyer → Buyer → Bool} {b x : Buyer} {l : List Buyer}
    (h : b ∈ insertSorted le x l) : b = x ∨ b ∈ l := by
  induction l with
  | nil =>
    simp [insertSorted] at h
    exact Or.inl h
  | cons y ys ih =>
    unfold insertSorted at h
    by_cases hle : le x y
    · simp [hle] at h
      rcases h with h | h | h
      · exact Or.inl h
      · exact Or.inr (by simp [h])
      · exact Or.inr (by simp [h])
    · simp [hle] at h
      rcases h with h | h
      · exact Or.inr (by simp [h])
      · rcases ih h with h2 | h2
        · exact Or.inl h2
        · exact Or.inr (by simp [h2])

theorem mem_sortBuyers {le : Buyer → Buyer → Bool} {b : Buyer} {l : List Buyer}
    (h : b ∈ sortBuyers le l) : b ∈ l := by
  induction l with
  | nil => simp [sortBuyers] at h
  | cons x xs ih =>
    unfold sortBuyers at h
    rcases mem_insertSorted h with h2 | h2
    · simp [h2]
    · simp [ih h2]

theorem mem_paginate {page : Option Int} {l : List Buyer} {b : Buyer}
    (h : b ∈ paginate page l) : b ∈ l := by
  unfold paginate at h
  cases page with
  | none => simp at h
  | some pg => exact List.drop_subset _ _ (List.take_subset _ _ h)

theorem mem_getBuyersRows {user : UserWithRole} {p : ListParams} {rows : List Buyer}
    {b : Buyer} (hb : b ∈ getBuyersRows user p rows) :
    whereAnd (buildConditions user p.filters) b = true := by
  unfold getBuyersRows at hb
  exact (List.mem_filter.mp (mem_sortBuyers (mem_paginate hb))).2

theorem mem_exportSelect {user : UserWithRole} {f : QueryFilters} {rows : List Buyer}
    {b : Buyer} (hb : b ∈ exportSelect user f rows) :
    whereAnd (buildConditions user f) b = true := by
  unfold exportSelect at hb
  exact (List.mem_filter.mp (mem_sortBuyers hb)).2

theorem whereAnd_owner {user : UserWithRole} {f : QueryFilters} {b : Buyer}
    (hadmin : user.isAdmin = false)
    (hw : whereAnd (buildConditions user f) b = true) : b.ownerId = user.id := by
  unfold buildConditions canViewAllBuyers at hw
  rw [hadmin] at hw
  simp only [Bool.false_eq_true, if_false, List.cons_append, List.nil_append,
    whereAnd, List.all_cons, Bool.and_eq_true] at hw
  exact eq_of_beq hw.1

theorem filterConditions_ownerId_blind (f : QueryFilters) (c : Buyer → Bool)
    (hc : c ∈ filterConditions f) (b : Buyer) (o : String) :
    c b = c { b with ownerId := o } := by
  unfold filterConditions at hc
  simp only [condIf, List.mem_append] at hc
  rcases hc with (((hc | hc) | hc) | hc) | hc <;>
    · split at hc
      · rw [List.mem_singleton] at hc
        subst hc
        rfl
      · simp at hc

/-- C4: for a non-admin caller, every record returned by the list query
(any search, filter, sort, pagination parameters) and every record
selected by the CSV export satisfies ownerId equal to the caller id; for
an admin caller, the query conditions are exactly the filter conditions
— no ownership condition is applied — and none of those conditions
depends on a records ownerId. -/
theorem claim_C4_ownership_scoping (user : UserWithRole) (p : ListParams)
    (f : QueryFilters) (rows : List Buyer) :
    (user.isAdmin = false →
       (∀ b ∈ getBuyersRows user p rows, b.ownerId = user.id) ∧
       (∀ b ∈ exportSelect user f rows, b.ownerId = user.id)) ∧
    (user.isAdmin = true →
       buildConditions user f = filterConditions f ∧
       ∀ c ∈ filterConditions f, ∀ (b : Buyer) (o : String),
         c b = c { b with ownerId := o }) := by
  constructor
  · intro hadmin
    constructor
    · intro b hb
      exact whereAnd_owner hadmin (mem_getBuyersRows hb)
    · intro b hb
      exact whereAnd_owner hadmin (mem_exportSelect hb)
  · intro hadmin
    constructor
    · unfold buildConditions canViewAllBuyers
      rw [hadmin]
      simp
    · intro c hc b o
      exact filterConditions_ownerId_blind f c hc b o

/-- Witness for C4: in a database holding records of two owners, the
record the non-admin query returns belongs to the caller. -/
theorem claim_C4_witness : sampleBuyer.ownerId = sampleOwner.id :=
  ((claim_C4_ownership_scoping sampleOwner defaultListParams defaultFilters
      [sampleBuyer, otherBuyer]).1 rfl).1 sampleBuyer (by decide)

end LeadFlow
